import Mathlib

/-!
Verification of the marker candidate extraction and decoding pipeline of
codice-cam against its specification.

The development shallowly embeds the relevant C++ functions of
`src/MarkerDetector.cpp` and `src/ImageProcessor.cpp`:

* 8-bit rasters become `Img`, a pair of dimensions with a total pixel
  function `px : Nat → Nat → Nat` (`px y x` mirrors `cv::Mat::at<uchar>(y, x)`,
  values in `0..255`);
* `cv::threshold(..., 70, 255, THRESH_BINARY)` becomes `thresholdBin`;
* `cv::bitwise_not` on an 8-bit raster becomes `invertImg`;
* floating-point comparisons against the literals `0.60`, `0.8`, `1.25`
  appearing in the source are translated to exact rational comparisons; the
  translation is exact at every integer-valued input the code can produce
  (remarked at each use);
* the statistics counters and snapshot throttle are modelled as explicit
  state-passing step functions.
-/

namespace CodiceCam

/-- An 8-bit single-channel raster: `px y x` is the pixel at row `y`,
column `x` (as in `cv::Mat::at<uchar>(y, x)`), a value in `0..255`. -/
structure Img where
  rows : Nat
  cols : Nat
  px : Nat → Nat → Nat

/-- `cv::threshold(gray, binary, 70, 255, cv::THRESH_BINARY)`
(MarkerDetector.cpp:547): a pixel strictly above 70 maps to 255, the rest
to 0. -/
def thresholdBin (g : Img) : Img :=
  ⟨g.rows, g.cols, fun y x => if 70 < g.px y x then 255 else 0⟩

/-- `cv::bitwise_not` on an 8-bit image (MarkerDetector.cpp:573): every
pixel value `v` becomes `255 - v`. -/
def invertImg (b : Img) : Img :=
  ⟨b.rows, b.cols, fun y x => 255 - b.px y x⟩

/-- A pixel counts as white when its value exceeds 127 (the comparison
`pixel > 127` used throughout the decoder). -/
def whiteAt (b : Img) (y x : Nat) : Bool :=
  decide (127 < b.px y x)

/-- The polarity-normalization corner count of `decodeMarker`
(MarkerDetector.cpp:551-566): the binary patch is sampled at
(20,20), (20,80), (80,20), (80,80) and the white samples are counted. -/
def cornerWhiteCount (b : Img) : Nat :=
  (if whiteAt b 20 20 then 1 else 0) +
  (if whiteAt b 20 80 then 1 else 0) +
  (if whiteAt b 80 20 then 1 else 0) +
  (if whiteAt b 80 80 then 1 else 0)

/-- Polarity normalization (MarkerDetector.cpp:544-578): threshold the
grayscale patch at 70, then invert the whole binary patch exactly when 0
or 4 of the four corner samples read white; counts 1, 2 and 3 leave the
patch unchanged. -/
def normBinary (g : Img) : Img :=
  if cornerWhiteCount (thresholdBin g) = 0 ∨ cornerWhiteCount (thresholdBin g) = 4 then
    invertImg (thresholdBin g)
  else thresholdBin g

/-- One border-sample comparison of `isValidCodicePattern`
(MarkerDetector.cpp:694-703): when a black border is expected a pixel
matches iff its value is `< 127`, otherwise iff it is `≥ 127`. -/
def borderMatches (expectBlack : Bool) (v : Nat) : Bool :=
  if expectBlack then decide (v < 127) else decide (127 ≤ v)

/-- Whether `isValidCodicePattern` expects a black border
(MarkerDetector.cpp:678-684): the integer mean of the four border samples
at (0,0), (0,60), (60,0), (119,119) is below 127. -/
def expectBlackBorder (b : Img) : Bool :=
  decide ((b.px 0 0 + b.px 0 60 + b.px 60 0 + b.px 119 119) / 4 < 127)

/-- The `inconsistent_pixels` count of `isValidCodicePattern`
(MarkerDetector.cpp:691-707): rows 0 and 119 are scanned over all 120
columns and columns 0 and 119 over all 120 rows (480 samples in total,
the four corner pixels being visited twice). -/
def borderInconsistCount (b : Img) : Nat :=
  let eb := expectBlackBorder b
  (List.range 120).countP (fun x => ! borderMatches eb (b.px 0 x)) +
  (List.range 120).countP (fun x => ! borderMatches eb (b.px 119 x)) +
  (List.range 120).countP (fun y => ! borderMatches eb (b.px y 0)) +
  (List.range 120).countP (fun y => ! borderMatches eb (b.px y 119))

/-- `isValidCodicePattern` (MarkerDetector.cpp:666-724): the patch must be
exactly 120×120 and the border-inconsistency ratio must not exceed 60%.
The source compares the double `inconsistent_pixels / 480.0` against the
double literal `0.60`; both round the real value 0.6 to the same double,
so the comparison `ratio > 0.60` holds exactly when
`inconsistent_pixels ≥ 289`, i.e. the patch passes iff
`5 * inconsistent_pixels ≤ 1440`. -/
def isValidCodicePattern (b : Img) : Bool :=
  if b.rows ≠ 120 ∨ b.cols ≠ 120 then false
  else decide (5 * borderInconsistCount b ≤ 1440)

/-- A sample of the 60×60 `inner_region` extracted at offset (20,20) by
`decodeBinaryPattern` (MarkerDetector.cpp:731-732):
`inner_region.at<uchar>(y, x) > 127`. -/
def innerW (b : Img) (y x : Nat) : Bool :=
  decide (127 < b.px (20 + y) (20 + x))

/-- The orientation corner count of `decodeBinaryPattern`
(MarkerDetector.cpp:746-776): the inner region is sampled at
(7,7), (7,52), (52,7), (52,52) — absolute coordinates (27,27), (27,72),
(72,27), (72,72) of the 120×120 patch — and white samples are counted. -/
def orientWhiteCount (b : Img) : Nat :=
  (if innerW b 7 7 then 1 else 0) +
  (if innerW b 7 52 then 1 else 0) +
  (if innerW b 52 7 then 1 else 0) +
  (if innerW b 52 52 then 1 else 0)

/-- The rotation code selected by `decodeBinaryPattern`
(MarkerDetector.cpp:783-797) once exactly one orientation sample is
white: TR → 1 (90°), BR → 2 (180°), BL → 3 (270°), TL → 0 (0°). When
exactly one sample is white this if-chain picks the rotation of the white
one. -/
def resolvedRotation (b : Img) : Nat :=
  if innerW b 7 52 then 1
  else if innerW b 52 52 then 2
  else if innerW b 52 7 then 3
  else 0

/-- One cell of the 4×4 `pattern` array (MarkerDetector.cpp:806-814):
cell (row, col) samples the inner region at
(row * 15 + 7, col * 15 + 7). -/
def patternCell (b : Img) (r c : Nat) : Bool :=
  innerW b (r * 15 + 7) (c * 15 + 7)

/-- The source index `(src_row, src_col)` for destination `(row, col)` in
the rotation switch of `decodeBinaryPattern` (MarkerDetector.cpp:822-840). -/
def rotSrc : Nat → Nat × Nat → Nat × Nat
  | 1, (r, c) => (c, 3 - r)
  | 2, (r, c) => (3 - r, 3 - c)
  | 3, (r, c) => (3 - c, r)
  | _, (r, c) => (r, c)

/-- One cell of the `rotated_pattern` array (MarkerDetector.cpp:817-844):
`rotated_pattern[row][col] = pattern[src_row][src_col]`. -/
def rotatedCell (b : Img) (rot r c : Nat) : Bool :=
  patternCell b (rotSrc rot (r, c)).1 (rotSrc rot (r, c)).2

/-- The corner test of the bit-reading loop (MarkerDetector.cpp:854-857). -/
def isCornerCell (r c : Nat) : Bool :=
  (r = 0 && c = 0) || (r = 0 && c = 3) || (r = 3 && c = 0) || (r = 3 && c = 3)

/-- The row-major traversal order of the double loop at
MarkerDetector.cpp:847-848. -/
def cellList : List (Nat × Nat) :=
  [(0,0),(0,1),(0,2),(0,3),
   (1,0),(1,1),(1,2),(1,3),
   (2,0),(2,1),(2,2),(2,3),
   (3,0),(3,1),(3,2),(3,3)]

/-- The bit-accumulation loop of `decodeBinaryPattern`
(MarkerDetector.cpp:802-875): cells are visited in row-major order, the
four corner cells are skipped, and a white cell ORs `1 << bit_position`
into the accumulator; `bit_position` advances only on non-corner cells. -/
def accumBits (white : Nat → Nat → Bool) : Nat :=
  (cellList.foldl
    (fun acc rc =>
      if isCornerCell rc.1 rc.2 then acc
      else ((if white rc.1 rc.2 then acc.1 ||| 1 <<< acc.2 else acc.1), acc.2 + 1))
    (0, 0)).1

/-- `decodeBinaryPattern` (MarkerDetector.cpp:726-890): returns -1 unless
exactly one orientation sample is white, otherwise reads the rotated
pattern into a 12-bit identifier. -/
def decodeBinaryPattern (b : Img) : Int :=
  if orientWhiteCount b ≠ 1 then -1
  else Int.ofNat (accumBits (rotatedCell b (resolvedRotation b)))

/-- `calculateConfidence` (MarkerDetector.cpp:892-907): base 0.5, plus
0.3 when the id is in range, plus 0.2, capped at 1.0. The double sums are
translated to exact rationals; only the values 1 and 7/10 arise and the
cap and both comparisons agree with the double computation. -/
def calculateConfidence (id : Int) : ℚ :=
  min (1/2 + (if 0 ≤ id ∧ id < 4096 then 3/10 else 0) + 1/5) 1

/-- The tail of `decodeMarker` after polarity normalization
(MarkerDetector.cpp:598-621): validate the pattern, decode the identifier,
compute the confidence and require the identifier to be in `[0, 4096)`. -/
def decodePost (b : Img) : Option (Int × ℚ) :=
  if isValidCodicePattern b then
    if 0 ≤ decodeBinaryPattern b ∧ decodeBinaryPattern b < 4096 then
      some (decodeBinaryPattern b, calculateConfidence (decodeBinaryPattern b))
    else none
  else none

/-- `decodeMarker` (MarkerDetector.cpp:529-621) on a single-channel patch:
threshold at 70, polarity-normalize, then validate and decode. `none`
models the function returning `false` (no marker). -/
def decodeMarker (gray : Img) : Option (Int × ℚ) :=
  decodePost (normBinary gray)

/-- `testDecodeMarker` (MarkerDetector.cpp:1083-1086) forwards directly to
`decodeMarker`. -/
def testDecodeMarker (gray : Img) : Option (Int × ℚ) :=
  decodeMarker gray

/-! ### ImageProcessor configuration (src/ImageProcessor.cpp) -/

/-- The configuration fields of `ImageProcessor`
(ImageProcessor.h / ImageProcessor.cpp:7-17). `double` fields are
modelled as exact rationals. -/
structure ProcParams where
  blurKernelSize : Int
  contrastAlpha : ℚ
  brightnessBeta : Int
  cannyLow : Int
  cannyHigh : Int
  minContourArea : ℚ
  maxContourArea : ℚ
  minContourPerimeter : ℚ
deriving DecidableEq

/-- The constructor defaults of `ImageProcessor`
(ImageProcessor.cpp:7-17). -/
def initProcParams : ProcParams :=
  ⟨5, 12/10, 10, 50, 150, 1000, 50000, 100⟩

/-- `setPreprocessingParams` (ImageProcessor.cpp:99-106): the three values
are stored unconditionally; the function performs no validation. -/
def setPreprocessingParams (p : ProcParams) (blur : Int) (alpha : ℚ) (beta : Int) : ProcParams :=
  { p with blurKernelSize := blur, contrastAlpha := alpha, brightnessBeta := beta }

/-- `setEdgeDetectionParams` (ImageProcessor.cpp:108-114): the two
thresholds are stored unconditionally; no validation. -/
def setEdgeDetectionParams (p : ProcParams) (lo hi : Int) : ProcParams :=
  { p with cannyLow := lo, cannyHigh := hi }

/-- `setContourFilterParams` (ImageProcessor.cpp:116-123): stored
unconditionally; no validation. -/
def setContourFilterParams (p : ProcParams) (minA maxA minP : ℚ) : ProcParams :=
  { p with minContourArea := minA, maxContourArea := maxA, minContourPerimeter := minP }

/-- `validateParameters` (ImageProcessor.cpp:236-260). -/
def validateParameters (p : ProcParams) : Bool :=
  if p.blurKernelSize < 0 ∨ (0 < p.blurKernelSize ∧ p.blurKernelSize % 2 = 0) then false
  else if p.contrastAlpha ≤ 0 then false
  else if p.cannyLow < 0 ∨ p.cannyHigh < 0 ∨ p.cannyHigh ≤ p.cannyLow then false
  else if p.minContourArea < 0 ∨ p.maxContourArea < 0 ∨
          p.maxContourArea ≤ p.minContourArea ∨ p.minContourPerimeter < 0 then false
  else true

/-- The success/failure skeleton of `processFrame`
(ImageProcessor.cpp:22-51): the call fails when the input frame is empty
or when `validateParameters` rejects the current configuration — the
latter is re-checked on every call. The image computation itself (blur,
contrast, Canny) is not needed by any claim and is not modelled. -/
def processFrameOk (p : ProcParams) (inputEmpty : Bool) : Bool :=
  !inputEmpty && validateParameters p

/-- The per-contour measurements consumed by `filterContour`
(ImageProcessor.cpp:175-234). The OpenCV geometric primitives are
abstracted as the values they return on the contour:
`numPoints` is `contour.size()`, `area` is `cv::contourArea`,
`perimeter` is `cv::arcLength(contour, true)`, `approxVertices` is the
vertex count of `cv::approxPolyDP` at epsilon `0.02 * perimeter`,
`bbWidth`/`bbHeight` are the `cv::boundingRect` dimensions, and
`cornerAnglesOk` is the result of the floating-point `acos` corner-angle
loop (lines 210-231), abstracted as a Boolean input. -/
structure ContourMeasure where
  numPoints : Nat
  area : ℚ
  perimeter : ℚ
  approxVertices : Nat
  bbWidth : ℚ
  bbHeight : ℚ
  cornerAnglesOk : Bool
deriving DecidableEq

/-- `filterContour` (ImageProcessor.cpp:175-234), check for check in
source order. The double literals `0.8` and `1.25` become the exact
rationals 4/5 and 5/4 (the nearest double to 0.8 differs from 4/5 by
less than 2⁻⁵³; no integer-ratio aspect value the code can produce falls
in that gap, and 1.25 is exact). -/
def filterContour (p : ProcParams) (c : ContourMeasure) : Bool :=
  if c.numPoints < 4 then false
  else if c.area < p.minContourArea ∨ p.maxContourArea < c.area then false
  else if c.perimeter < p.minContourPerimeter then false
  else if c.approxVertices ≠ 4 then false
  else if c.bbWidth / c.bbHeight < 4/5 ∨ 5/4 < c.bbWidth / c.bbHeight then false
  else c.cornerAnglesOk

/-! ### Detection statistics (MarkerDetector.cpp) -/

/-- The three statistics counters of `MarkerDetector`
(MarkerDetector.h:96-98). -/
structure Stats where
  frames : Nat
  attempts : Nat
  markers : Nat
deriving DecidableEq

/-- The counter updates of the one-argument `detectMarkers` overload
(MarkerDetector.cpp:50-180): an empty frame returns before any counter is
touched (lines 53-58); a `processFrame` failure returns after
`total_frames_processed_++`; otherwise `total_detection_attempts_++` runs
once per contour and `total_markers_detected_++` once per accepted
marker. `accepted` lists, per contour, whether `processContour` succeeded
with confidence at least `min_confidence_`. -/
def detectMarkersStats (s : Stats) (frameEmpty processOk : Bool)
    (accepted : List Bool) : Stats :=
  if frameEmpty then s
  else if !processOk then { s with frames := s.frames + 1 }
  else
    { frames := s.frames + 1,
      attempts := s.attempts + accepted.length,
      markers := s.markers + accepted.count true }

/-- The counter updates of the two-argument `detectMarkers` overload
(MarkerDetector.cpp:182-302): `total_frames_processed_++` runs first
(line 184), before the empty-frame check at line 190. -/
def detectMarkersStats2 (s : Stats) (framesEmpty : Bool)
    (accepted : List Bool) : Stats :=
  if framesEmpty then { s with frames := s.frames + 1 }
  else
    { frames := s.frames + 1,
      attempts := s.attempts + accepted.length,
      markers := s.markers + accepted.count true }

/-! ### Snapshot throttle (MarkerDetector.cpp) -/

/-- A marker center (`cv::Point2f`), modelled with exact rational
coordinates. -/
structure Pt where
  x : ℚ
  y : ℚ
deriving DecidableEq

/-- Squared Euclidean distance. `cv::norm(a - b) > threshold` with
`threshold ≥ 0` holds iff `dist2 a b > threshold²`, which is how the
comparison of MarkerDetector.cpp:646-647 is modelled. -/
def dist2 (p q : Pt) : ℚ :=
  (p.x - q.x) ^ 2 + (p.y - q.y) ^ 2

/-- `hasLocationChanged` (MarkerDetector.cpp:627-657): true when the
stored previous-centers list is empty, when the marker count changed, or
when some marker moved more than the threshold. The index loop over
`i < current.size && i < previous.size` pairs the lists positionally,
i.e. it ranges over `current.zip previous`. -/
def hasLocationChanged (threshold : ℚ) (prev current : List Pt) : Bool :=
  if prev.isEmpty then true
  else if current.length ≠ prev.length then true
  else (current.zip prev).any (fun pq => decide (threshold ^ 2 < dist2 pq.1 pq.2))

/-- The snapshot decision and baseline update of `detectMarkers`
(MarkerDetector.cpp:132 and 168-172): a debug snapshot is written iff
debug mode is on and `hasLocationChanged` holds, and
`previous_marker_locations_` is then replaced by the current centers
unconditionally — on every call, whether or not anything was written.
Returns (snapshot emitted?, new previous-centers list). -/
def snapshotStep (debugMode : Bool) (threshold : ℚ) (prev current : List Pt) :
    Bool × List Pt :=
  (debugMode && hasLocationChanged threshold prev current, current)

/-! ### Specification-side definitions

The following definitions transcribe the specification's wording (not the
source) so that the spec's description of the decoder can be compared with
the embedded code. They are used only to exhibit divergences. -/

/-- The 12 non-corner cells of the 4×4 grid in raster (row-major) order,
as enumerated by both the source loop and the spec's step 5. -/
def nonCornerCells : List (Nat × Nat) :=
  [(0,1),(0,2),(1,0),(1,1),(1,2),(1,3),(2,0),(2,1),(2,2),(2,3),(3,1),(3,2)]

/-- Read 12 bits least-significant-bit first from the non-corner cells of
a 4×4 white-cell predicate, with a rotation applied to each cell's
coordinates before sampling. Shared shape of the code-side and spec-side
extractions. -/
def extractBitsLSB (white : Nat → Nat → Bool) (rot : Nat) : Nat :=
  (nonCornerCells.foldl
    (fun acc rc =>
      ((if white (rotSrc rot rc).1 (rotSrc rot rc).2 then acc.1 ||| 1 <<< acc.2
        else acc.1), acc.2 + 1))
    (0, 0)).1

/-- The bit extraction actually performed by `decodeBinaryPattern`,
restated with the rotation applied to each cell's coordinates before
sampling: cell (r, c) is sampled at offset (15r+7, 15c+7) of the 60×60
inner region, i.e. at absolute coordinates 27, 42, 57, 72 of the patch. -/
def extractWithRot (b : Img) (rot : Nat) : Nat :=
  extractBitsLSB (patternCell b) rot

/-- Spec wording, §4.4 step 5 / claim C1: a cell (r, c) of the inner 4×4
data grid of the 6×6-cell 120×120 patch (cells 1..4 in each axis) is
sampled at its center, absolute coordinates (30 + 20r, 30 + 20c). -/
def specCellWhite (b : Img) (r c : Nat) : Bool :=
  decide (127 < b.px (30 + 20 * r) (30 + 20 * c))

/-- Spec wording, claim C1: the identifier obtained by sampling the
centers of the 16 inner-grid cells, applying the rotation to each cell's
coordinates before sampling, skipping the four corner cells and reading
the remaining 12 in raster order, least-significant bit first. -/
def specExtractId (b : Img) (rot : Nat) : Nat :=
  extractBitsLSB (specCellWhite b) rot

/-- Spec wording, claim C2: orientation resolution samples the four
corner cells of the inner 4×4 data grid (at their centers). -/
def specOrientCount (b : Img) : Nat :=
  (if specCellWhite b 0 0 then 1 else 0) +
  (if specCellWhite b 0 3 then 1 else 0) +
  (if specCellWhite b 3 0 then 1 else 0) +
  (if specCellWhite b 3 3 then 1 else 0)

/-- Spec wording, claim C2: white corner at top-left / top-right /
bottom-left / bottom-right yields rotation 0° / 90° / 180° / 270°
respectively (rotation codes 0 / 1 / 2 / 3). -/
def specC2Rotation (b : Img) : Nat :=
  if specCellWhite b 0 3 then 1
  else if specCellWhite b 3 0 then 2
  else if specCellWhite b 3 3 then 3
  else 0

/-- Claim C2's decoder: `decodeBinaryPattern` with its orientation step
replaced by the claim's wording (corner-cell-center sampling and the
TL/TR/BL/BR → 0°/90°/180°/270° mapping), everything else as in the code. -/
def specC2DecodePattern (b : Img) : Int :=
  if specOrientCount b ≠ 1 then -1
  else Int.ofNat (accumBits (rotatedCell b (specC2Rotation b)))

/-- Spec wording, claim C8 / §4.5: same snapshot condition as the code,
but the previous-centers baseline keeps the centers from the last frame
that produced output — it is updated only when a snapshot is emitted. -/
def specSnapshotStep (debugMode : Bool) (threshold : ℚ) (prev current : List Pt) :
    Bool × List Pt :=
  let emit := debugMode && hasLocationChanged threshold prev current
  (emit, if emit then current else prev)

/-! ### Concrete patches for counterexamples and witnesses -/

/-- A synthetic canonical 120×120 patch: the listed cells of the inner
4×4 grid (20-pixel cells at offset 20) are filled white (255), everything
else, border included, is black (0). -/
def cellPatch (whites : List (Nat × Nat)) : Img :=
  ⟨120, 120, fun y x =>
    if 20 ≤ y ∧ y < 100 ∧ 20 ≤ x ∧ x < 100 ∧
       ((y - 20) / 20, (x - 20) / 20) ∈ whites then 255 else 0⟩

/-- Patch with white inner cells (0,0) and (1,3): the code decodes it to
id 0, the spec's cell-center sampling reads id 32. -/
def patchA : Img := cellPatch [(0,0), (1,3)]

/-- Patch with white inner cells (2,0), (3,0) and (1,2): the code's
orientation step sees its white sample at "BL" and applies 270°, decoding
id 3072; the claim's 180° mapping would decode id 68. -/
def patchB : Img := cellPatch [(2,0), (3,0), (1,2)]

/-- The all-black patch. -/
def patchBlack : Img := cellPatch []

/-- A patch with exactly one white polarity corner, used as a concrete
well-formed decoder input. -/
def patchC : Img := cellPatch [(0,0)]

/-! ### Helper lemmas -/

/-- A thresholded pixel is 0 or 255. -/
lemma thresholdBin_px_cases (g : Img) (y x : Nat) :
    (thresholdBin g).px y x = 0 ∨ (thresholdBin g).px y x = 255 := by
  unfold thresholdBin
  dsimp only
  split_ifs <;> simp

/-- A polarity-normalized pixel is 0 or 255. -/
lemma normBinary_px_cases (g : Img) (y x : Nat) :
    (normBinary g).px y x = 0 ∨ (normBinary g).px y x = 255 := by
  unfold normBinary
  split_ifs with h
  · rcases thresholdBin_px_cases g y x with h0 | h0 <;>
      simp [invertImg, h0]
  · exact thresholdBin_px_cases g y x

/-- `normBinary` preserves the image dimensions. -/
lemma normBinary_dims (g : Img) :
    (normBinary g).rows = g.rows ∧ (normBinary g).cols = g.cols := by
  unfold normBinary
  split_ifs <;> exact ⟨rfl, rfl⟩

/-- An ambiguous orientation reading makes the whole decode fail: when the
count of white orientation samples is not 1, `decodeBinaryPattern`
returns -1 and `decodeMarker` returns no marker. -/
lemma decodeMarker_none_of_orient (g : Img)
    (h : orientWhiteCount (normBinary g) ≠ 1) :
    decodeMarker g = none := by
  have hd : decodeBinaryPattern (normBinary g) = -1 := by
    unfold decodeBinaryPattern
    rw [if_pos h]
  unfold decodeMarker decodePost
  split_ifs with h1 h2
  · rw [hd] at h2
    exact absurd h2.1 (by decide)
  · rfl
  · rfl

/-- A successful decode implies exactly one white orientation sample. -/
lemma orient_count_of_decode (g : Img) (id : Int) (conf : ℚ)
    (h : decodeMarker g = some (id, conf)) :
    orientWhiteCount (normBinary g) = 1 := by
  by_contra hc
  rw [decodeMarker_none_of_orient g hc] at h
  exact Option.noConfusion h

/-- Flipping four Boolean indicators complements their count in 4. -/
lemma flip_count4 (a b c d : Bool) :
    ((if !a then 1 else 0) + (if !b then 1 else 0) +
     (if !c then 1 else 0) + (if !d then 1 else 0) : Nat) =
    4 - ((if a then 1 else 0) + (if b then 1 else 0) +
         (if c then 1 else 0) + (if d then 1 else 0)) := by
  cases a <;> cases b <;> cases c <;> cases d <;> rfl

/-- The polarity corner count is at most 4. -/
lemma cornerWhiteCount_le (b : Img) : cornerWhiteCount b ≤ 4 := by
  unfold cornerWhiteCount
  split_ifs <;> omega

/-- The confidence of an in-range identifier is exactly 1
(0.5 + 0.3 + 0.2 capped at 1). -/
lemma calculateConfidence_valid (id : Int) (h : 0 ≤ id ∧ id < 4096) :
    calculateConfidence id = 1 := by
  unfold calculateConfidence
  rw [if_pos h]
  norm_num

/-- Evaluation rule: when validation succeeds and the pattern decodes to
an in-range identifier, `decodeMarker` returns it with confidence 1. -/
lemma decodeMarker_eval (g : Img) (n : Nat)
    (hv : isValidCodicePattern (normBinary g) = true)
    (hd : decodeBinaryPattern (normBinary g) = Int.ofNat n)
    (hn : n < 4096) :
    decodeMarker g = some (Int.ofNat n, 1) := by
  have hr : (0 : Int) ≤ Int.ofNat n ∧ (Int.ofNat n : Int) < 4096 :=
    ⟨Int.ofNat_nonneg n, Int.ofNat_lt.mpr hn⟩
  unfold decodeMarker decodePost
  rw [hv, if_pos rfl, hd, if_pos hr, calculateConfidence_valid _ hr]

/-! ### Claim theorems -/

/-- C4: during polarity normalization the decoder counts the white
samples among the four corner positions (20,20), (20,80), (80,20),
(80,80) of the thresholded patch; a count of 0 or 4 inverts the whole
binary patch before the rest of the decode, a count of 1 leaves it
unchanged, and counts of 2 or 3 also leave it unchanged while decoding
still proceeds to the border check and beyond (`decodePost`). -/
theorem C4_polarity_normalization (gray : Img) :
    (cornerWhiteCount (thresholdBin gray) = 0 ∨ cornerWhiteCount (thresholdBin gray) = 4 →
      decodeMarker gray = decodePost (invertImg (thresholdBin gray))) ∧
    (cornerWhiteCount (thresholdBin gray) = 1 →
      decodeMarker gray = decodePost (thresholdBin gray)) ∧
    (cornerWhiteCount (thresholdBin gray) = 2 ∨ cornerWhiteCount (thresholdBin gray) = 3 →
      decodeMarker gray = decodePost (thresholdBin gray)) := by
  unfold decodeMarker normBinary
  refine ⟨fun h => ?_, fun h => ?_, fun h => ?_⟩
  · rw [if_pos h]
  · rw [if_neg (by omega)]
  · rw [if_neg (by omega)]

/-- C4 witness: a concrete patch with exactly one white polarity corner
is decoded without inversion. -/
theorem C4_polarity_normalization_witness :
    cornerWhiteCount (thresholdBin patchC) = 1 ∧
    decodeMarker patchC = decodePost (thresholdBin patchC) :=
  ⟨by decide, (C4_polarity_normalization patchC).2.1 (by decide)⟩

/-- C5: a boundary yields a marker candidate only if its polygon
approximation (at epsilon = 2% of arc length) has exactly 4 vertices,
its area lies in [minArea, maxArea], its perimeter is at least
minPerimeter, and its bounding-box aspect ratio lies in [0.8, 1.25]; in
particular a boundary approximating to 3, 5 or more vertices never
passes the filter. -/
theorem C5_candidate_filter (p : ProcParams) (c : ContourMeasure)
    (h : filterContour p c = true) :
    c.approxVertices = 4 ∧
    p.minContourArea ≤ c.area ∧ c.area ≤ p.maxContourArea ∧
    p.minContourPerimeter ≤ c.perimeter ∧
    4/5 ≤ c.bbWidth / c.bbHeight ∧ c.bbWidth / c.bbHeight ≤ 5/4 := by
  unfold filterContour at h
  split_ifs at h with h1 h2 h3 h4 h5
  push_neg at h2 h3 h5
  exact ⟨not_ne_iff.mp h4, h2.1, h2.2, h3, h5.1, h5.2⟩

/-- C5 witness: a concrete square-like contour passes the filter and
satisfies all four constraints. -/
theorem C5_candidate_filter_witness :
    filterContour initProcParams ⟨8, 2000, 180, 4, 50, 50, true⟩ = true ∧
    ((⟨8, 2000, 180, 4, 50, 50, true⟩ : ContourMeasure).approxVertices = 4 ∧
     initProcParams.minContourArea ≤ (⟨8, 2000, 180, 4, 50, 50, true⟩ : ContourMeasure).area ∧
     (⟨8, 2000, 180, 4, 50, 50, true⟩ : ContourMeasure).area ≤ initProcParams.maxContourArea ∧
     initProcParams.minContourPerimeter ≤ (⟨8, 2000, 180, 4, 50, 50, true⟩ : ContourMeasure).perimeter ∧
     4/5 ≤ (⟨8, 2000, 180, 4, 50, 50, true⟩ : ContourMeasure).bbWidth /
       (⟨8, 2000, 180, 4, 50, 50, true⟩ : ContourMeasure).bbHeight ∧
     (⟨8, 2000, 180, 4, 50, 50, true⟩ : ContourMeasure).bbWidth /
       (⟨8, 2000, 180, 4, 50, 50, true⟩ : ContourMeasure).bbHeight ≤ 5/4) :=
  ⟨by unfold filterContour initProcParams; norm_num,
   C5_candidate_filter initProcParams ⟨8, 2000, 180, 4, 50, 50, true⟩
     (by unfold filterContour initProcParams; norm_num)⟩

/-- C6: on a 120×120 binary patch, border validation fails exactly when
more than 60% of the 480 border-ring samples disagree with the polarity
inferred from the four border samples, and a failed border validation
makes the decode return no marker. -/
theorem C6_border_validation (b : Img) (hr : b.rows = 120) (hc : b.cols = 120) :
    (isValidCodicePattern b = false ↔ 1440 < 5 * borderInconsistCount b) ∧
    (isValidCodicePattern b = false → decodePost b = none) := by
  constructor
  · unfold isValidCodicePattern
    rw [if_neg (by simp [hr, hc])]
    simp
  · intro h
    unfold decodePost
    rw [h]
    simp

/-- C6 witness: the all-black patch has a fully consistent border and
passes validation. -/
theorem C6_border_validation_witness :
    (isValidCodicePattern patchBlack = false ↔ 1440 < 5 * borderInconsistCount patchBlack) ∧
    (isValidCodicePattern patchBlack = false → decodePost patchBlack = none) :=
  C6_border_validation patchBlack rfl rfl

/-- C7 counterexample: `setPreprocessingParams` applies an even blur
kernel size instead of rejecting it — the previously-valid configuration
does not remain in effect, and processing fails on every subsequent
frame because validation runs per call of `processFrame`. -/
theorem C7_counterexample :
    setPreprocessingParams initProcParams 4 (13/10) 20 ≠ initProcParams ∧
    (setPreprocessingParams initProcParams 4 (13/10) 20).blurKernelSize = 4 ∧
    validateParameters (setPreprocessingParams initProcParams 4 (13/10) 20) = false ∧
    processFrameOk (setPreprocessingParams initProcParams 4 (13/10) 20) false = false := by
  decide

/-- C7 amended: setters store their arguments unconditionally; parameter
validation happens inside every `processFrame` call, so after an
out-of-contract setter call (even positive blur kernel, or
low ≥ high edge thresholds) every subsequent `processFrame` fails. -/
theorem C7_amended_validation_per_frame (p : ProcParams) (blur : Int) (alpha : ℚ)
    (beta : Int) (lo hi : Int) (inputEmpty : Bool) :
    (setPreprocessingParams p blur alpha beta).blurKernelSize = blur ∧
    (0 < blur → blur % 2 = 0 →
      processFrameOk (setPreprocessingParams p blur alpha beta) inputEmpty = false) ∧
    (hi ≤ lo → processFrameOk (setEdgeDetectionParams p lo hi) inputEmpty = false) := by
  refine ⟨rfl, fun hpos heven => ?_, fun hle => ?_⟩
  · have hv : validateParameters (setPreprocessingParams p blur alpha beta) = false := by
      unfold validateParameters setPreprocessingParams
      rw [if_pos (Or.inr ⟨hpos, heven⟩)]
    unfold processFrameOk
    rw [hv, Bool.and_false]
  · have hv : validateParameters (setEdgeDetectionParams p lo hi) = false := by
      unfold validateParameters setEdgeDetectionParams
      split_ifs with h1 h2 h3 <;> try rfl
      exact absurd (Or.inr (Or.inr hle)) h3
    unfold processFrameOk
    rw [hv, Bool.and_false]

/-- C7 amended witness: after setting an even blur kernel or inverted
edge thresholds, concrete `processFrame` calls fail. -/
theorem C7_amended_witness :
    processFrameOk (setPreprocessingParams initProcParams 4 (13/10) 20) false = false ∧
    processFrameOk (setEdgeDetectionParams initProcParams 100 50) false = false :=
  ⟨(C7_amended_validation_per_frame initProcParams 4 (13/10) 20 100 50 false).2.1
      (by decide) (by decide),
   (C7_amended_validation_per_frame initProcParams 4 (13/10) 20 100 50 false).2.2
      (by decide)⟩

/-- C9 counterexample: a call of the one-argument `detectMarkers` overload
with an empty frame returns before `total_frames_processed_++`, so
`framesProcessed` is not incremented. -/
theorem C9_counterexample :
    (detectMarkersStats ⟨0, 0, 0⟩ true true []).frames = 0 ∧
    (detectMarkersStats ⟨0, 0, 0⟩ true true []).frames ≠ 0 + 1 := by
  decide

/-- C9 amended: the counters never decrease under either `detectMarkers`
overload; a call of the one-argument overload with a non-empty frame
increments `framesProcessed` by exactly one, and the two-argument
overload increments it on every call (it counts the frame before its
empty-frame check). -/
theorem C9_amended_counters (s : Stats) (frameEmpty processOk : Bool)
    (accepted : List Bool) :
    (s.frames ≤ (detectMarkersStats s frameEmpty processOk accepted).frames ∧
     s.attempts ≤ (detectMarkersStats s frameEmpty processOk accepted).attempts ∧
     s.markers ≤ (detectMarkersStats s frameEmpty processOk accepted).markers) ∧
    (frameEmpty = false →
      (detectMarkersStats s frameEmpty processOk accepted).frames = s.frames + 1) ∧
    (detectMarkersStats2 s frameEmpty accepted).frames = s.frames + 1 ∧
    (s.attempts ≤ (detectMarkersStats2 s frameEmpty accepted).attempts ∧
     s.markers ≤ (detectMarkersStats2 s frameEmpty accepted).markers) := by
  unfold detectMarkersStats detectMarkersStats2
  refine ⟨?_, fun he => ?_, ?_, ?_⟩ <;> split_ifs <;> simp_all

/-- C9 amended witness: a concrete non-empty-frame call increments
`framesProcessed` from 2 to 3. -/
theorem C9_amended_counters_witness :
    (detectMarkersStats ⟨2, 3, 4⟩ false true [true, false]).frames = 2 + 1 ∧
    (detectMarkersStats2 ⟨2, 3, 4⟩ true []).frames = 2 + 1 :=
  ⟨(C9_amended_counters ⟨2, 3, 4⟩ false true [true, false]).2.1 rfl,
   (C9_amended_counters ⟨2, 3, 4⟩ true true []).2.2.1⟩

/-- C10: any patch whose dimensions are not exactly 120×120 — including
the 100×100 size that the `testDecodeMarker` documentation describes —
is rejected by pattern validation, and both `decodeMarker` and
`testDecodeMarker` return no marker. -/
theorem C10_size_gate (g : Img) (h : ¬(g.rows = 120 ∧ g.cols = 120)) :
    decodeMarker g = none ∧ testDecodeMarker g = none := by
  have hv : isValidCodicePattern (normBinary g) = false := by
    unfold isValidCodicePattern
    rw [if_pos]
    rcases not_and_or.mp h with h1 | h1
    · exact Or.inl (by rw [(normBinary_dims g).1]; exact h1)
    · exact Or.inr (by rw [(normBinary_dims g).2]; exact h1)
  have hd : decodeMarker g = none := by
    unfold decodeMarker decodePost
    rw [hv]
    simp
  exact ⟨hd, hd⟩

/-- C10 witness: a 100×100 all-black patch is rejected. -/
theorem C10_size_gate_witness :
    decodeMarker ⟨100, 100, fun _ _ => 0⟩ = none ∧
    testDecodeMarker ⟨100, 100, fun _ _ => 0⟩ = none :=
  C10_size_gate ⟨100, 100, fun _ _ => 0⟩ (by decide)

/-- C1 counterexample: `patchA` decodes successfully to id 0, but the
specification's procedure — sampling each of the 16 inner-grid cells at
its center — reads id 32 at the resolved rotation (0°), and a nonzero id
under every other rotation. The code never samples the fourth cell row or
column (its sample abscissas 27, 42, 57, 72 all fall in cells 0..2), so
the white cell (1,3) of `patchA` is invisible to it. -/
theorem C1_counterexample :
    decodeMarker patchA = some (0, 1) ∧
    resolvedRotation (normBinary patchA) = 0 ∧
    specExtractId (normBinary patchA) 0 = 32 ∧
    specExtractId (normBinary patchA) 1 = 1 ∧
    specExtractId (normBinary patchA) 2 = 64 ∧
    specExtractId (normBinary patchA) 3 = 2048 := by
  refine ⟨decodeMarker_eval patchA 0 (by decide) (by decide) (by decide),
    ?_, ?_, ?_, ?_, ?_⟩ <;> decide

/-- C1 amended: for every patch on which decode succeeds, exactly one
orientation sample is white and the identifier equals the 12-bit word
obtained by sampling the 4×4 grid at offsets 15k+7 (k = 0..3) of the
60×60 inner region at (20,20) — absolute coordinates 27, 42, 57, 72, not
the inner-grid cell centers — applying the resolved rotation to each
cell's coordinates before sampling, skipping the 4 corner cells of the
rotated grid and reading the remaining 12 cells in row-major order,
least-significant bit first; the identifier lies in [0, 4095]. -/
theorem C1_amended_bit_extraction (gray : Img) (id : Int) (conf : ℚ)
    (h : decodeMarker gray = some (id, conf)) :
    orientWhiteCount (normBinary gray) = 1 ∧
    id = Int.ofNat (extractWithRot (normBinary gray) (resolvedRotation (normBinary gray))) ∧
    0 ≤ id ∧ id < 4096 := by
  have hcount := orient_count_of_decode gray id conf h
  unfold decodeMarker decodePost at h
  split_ifs at h with h1 h2
  · simp only [Option.some.injEq, Prod.mk.injEq] at h
    rw [h.1] at h2
    refine ⟨hcount, ?_, h2.1, h2.2⟩
    have hid : decodeBinaryPattern (normBinary gray) = id := h.1
    unfold decodeBinaryPattern at hid
    rw [if_neg (not_ne_iff.mpr hcount)] at hid
    exact hid.symm

/-- C1 amended witness: on `patchA` the decode succeeds with id 0, which
equals the code-side extraction at the resolved rotation. -/
theorem C1_amended_witness :
    decodeMarker patchA = some (0, 1) ∧
    (0 : Int) = Int.ofNat (extractWithRot (normBinary patchA) (resolvedRotation (normBinary patchA))) :=
  ⟨decodeMarker_eval patchA 0 (by decide) (by decide) (by decide),
   (C1_amended_bit_extraction patchA 0 1
      (decodeMarker_eval patchA 0 (by decide) (by decide) (by decide))).2.1⟩

/-- C2 counterexample: on `patchB` the code's orientation step finds its
single white sample at the bottom-left position and applies 270°,
decoding id 3072, while the claim's described procedure — the corner
cells of the inner 4×4 data grid, with bottom-left mapping to 180° —
also finds a single white corner at bottom-left but reads id 68. -/
theorem C2_counterexample :
    decodeMarker patchB = some (3072, 1) ∧
    specOrientCount (normBinary patchB) = 1 ∧
    specCellWhite (normBinary patchB) 3 0 = true ∧
    specC2DecodePattern (normBinary patchB) = 68 := by
  refine ⟨decodeMarker_eval patchB 3072 (by decide) (by decide) (by decide),
    ?_, ?_, ?_⟩ <;> decide

/-- C2 amended: orientation resolution samples the binary patch at the
four positions (27,27), (27,72), (72,27), (72,72); when the number of
white samples differs from 1 the decode returns no marker, and when it
is exactly 1 the applied rotation is 0°, 90°, 180° or 270° according to
whether the white sample is the top-left, top-right, bottom-RIGHT or
bottom-LEFT one respectively. -/
theorem C2_amended_orientation (gray : Img) :
    (orientWhiteCount (normBinary gray) ≠ 1 → decodeMarker gray = none) ∧
    (orientWhiteCount (normBinary gray) = 1 →
      (innerW (normBinary gray) 7 7 = true → resolvedRotation (normBinary gray) = 0) ∧
      (innerW (normBinary gray) 7 52 = true → resolvedRotation (normBinary gray) = 1) ∧
      (innerW (normBinary gray) 52 52 = true → resolvedRotation (normBinary gray) = 2) ∧
      (innerW (normBinary gray) 52 7 = true → resolvedRotation (normBinary gray) = 3)) := by
  refine ⟨decodeMarker_none_of_orient gray, fun hcount => ?_⟩
  unfold orientWhiteCount at hcount
  unfold resolvedRotation
  cases hA : innerW (normBinary gray) 7 7 <;>
  cases hB : innerW (normBinary gray) 7 52 <;>
  cases hC : innerW (normBinary gray) 52 7 <;>
  cases hD : innerW (normBinary gray) 52 52 <;>
    simp_all

/-- C2 amended witness: the all-black patch normalizes to four white
orientation samples and is rejected. -/
theorem C2_amended_orientation_witness :
    decodeMarker patchBlack = none :=
  (C2_amended_orientation patchBlack).1 (by decide)

/-! Lemmas about decoding the fully inverted copy of a binary-valued
patch. -/

/-- Thresholding the inverted copy of a binary-valued patch complements
the thresholded patch. -/
lemma threshold_invert (gray : Img)
    (hbin : ∀ y x, gray.px y x = 0 ∨ gray.px y x = 255) (y x : Nat) :
    (thresholdBin (invertImg gray)).px y x = 255 - (thresholdBin gray).px y x := by
  rcases hbin y x with h | h <;> norm_num [thresholdBin, invertImg, h]

/-- White samples flip on the thresholded inverted copy. -/
lemma whiteAt_threshold_invert (gray : Img)
    (hbin : ∀ y x, gray.px y x = 0 ∨ gray.px y x = 255) (y x : Nat) :
    whiteAt (thresholdBin (invertImg gray)) y x = ! whiteAt (thresholdBin gray) y x := by
  have h3 := threshold_invert gray hbin y x
  rcases thresholdBin_px_cases gray y x with h0 | h0 <;>
    · simp only [whiteAt, h3, h0]
      decide

/-- The polarity corner count of the inverted copy is the complement
in 4. -/
lemma cornerCount_invert (gray : Img)
    (hbin : ∀ y x, gray.px y x = 0 ∨ gray.px y x = 255) :
    cornerWhiteCount (thresholdBin (invertImg gray)) =
      4 - cornerWhiteCount (thresholdBin gray) := by
  unfold cornerWhiteCount
  rw [whiteAt_threshold_invert gray hbin 20 20, whiteAt_threshold_invert gray hbin 20 80,
      whiteAt_threshold_invert gray hbin 80 20, whiteAt_threshold_invert gray hbin 80 80]
  exact flip_count4 _ _ _ _

/-- Polarity normalization maps the inverted copy of a binary-valued
patch to the pixel-wise complement of the normalized original: when the
corner count is 0 or 4 both patches are inverted, otherwise neither is,
and in both cases the results are complementary. -/
lemma normBinary_invert (gray : Img)
    (hbin : ∀ y x, gray.px y x = 0 ∨ gray.px y x = 255) (y x : Nat) :
    (normBinary (invertImg gray)).px y x = 255 - (normBinary gray).px y x := by
  have hc4 := cornerWhiteCount_le (thresholdBin gray)
  have ht := threshold_invert gray hbin y x
  unfold normBinary
  rw [cornerCount_invert gray hbin]
  by_cases h : cornerWhiteCount (thresholdBin gray) = 0 ∨ cornerWhiteCount (thresholdBin gray) = 4
  · have h2 : 4 - cornerWhiteCount (thresholdBin gray) = 0 ∨
        4 - cornerWhiteCount (thresholdBin gray) = 4 := by omega
    rw [if_pos h2, if_pos h]
    show 255 - (thresholdBin (invertImg gray)).px y x =
      255 - (255 - (thresholdBin gray).px y x)
    rw [ht]
  · have h2 : ¬(4 - cornerWhiteCount (thresholdBin gray) = 0 ∨
        4 - cornerWhiteCount (thresholdBin gray) = 4) := by omega
    rw [if_neg h2, if_neg h]
    exact ht

/-- Orientation samples flip on the normalized inverted copy. -/
lemma innerW_invert (gray : Img)
    (hbin : ∀ y x, gray.px y x = 0 ∨ gray.px y x = 255) (y x : Nat) :
    innerW (normBinary (invertImg gray)) y x = ! innerW (normBinary gray) y x := by
  have h5 := normBinary_invert gray hbin (20 + y) (20 + x)
  rcases normBinary_px_cases gray (20 + y) (20 + x) with h0 | h0 <;>
    · simp only [innerW, h5, h0]
      decide

/-- The orientation corner count of the normalized inverted copy is the
complement in 4. -/
lemma orientCount_invert (gray : Img)
    (hbin : ∀ y x, gray.px y x = 0 ∨ gray.px y x = 255) :
    orientWhiteCount (normBinary (invertImg gray)) =
      4 - orientWhiteCount (normBinary gray) := by
  unfold orientWhiteCount
  rw [innerW_invert gray hbin 7 7, innerW_invert gray hbin 7 52,
      innerW_invert gray hbin 52 7, innerW_invert gray hbin 52 52]
  exact flip_count4 _ _ _ _

/-- C3 counterexample: `patchA` decodes to id 0 with confidence 1, but
its fully inverted copy decodes to no marker at all — the inversion turns
the single white orientation sample into three, which the 0-or-4
polarity normalization does not repair. -/
theorem C3_counterexample :
    decodeMarker patchA = some (0, 1) ∧ decodeMarker (invertImg patchA) = none :=
  ⟨decodeMarker_eval patchA 0 (by decide) (by decide) (by decide),
   decodeMarker_none_of_orient (invertImg patchA) (by decide)⟩

/-- C3 amended: for a binary-valued canonical patch (every pixel 0 or
255), a successful decode of the patch forces the decode of its fully
inverted copy to return no marker: the normalized inverted copy is the
pixel-wise complement, so it presents 3 white orientation samples. -/
theorem C3_amended_polarity (gray : Img) (id : Int) (conf : ℚ)
    (hbin : ∀ y x, gray.px y x = 0 ∨ gray.px y x = 255)
    (h : decodeMarker gray = some (id, conf)) :
    decodeMarker (invertImg gray) = none := by
  have h1 := orient_count_of_decode gray id conf h
  apply decodeMarker_none_of_orient
  rw [orientCount_invert gray hbin, h1]
  decide

/-- C3 amended witness: instantiated on `patchA`. -/
theorem C3_amended_polarity_witness :
    decodeMarker (invertImg patchA) = none :=
  C3_amended_polarity patchA 0 1
    (fun y x => by
      unfold patchA cellPatch
      dsimp only
      split_ifs <;> simp)
    (decodeMarker_eval patchA 0 (by decide) (by decide) (by decide))

/-- C8 counterexample: with debug mode on and the default 30px threshold,
start from a baseline holding one center at (0,0) (the state after a
frame that emitted a snapshot). A frame at (0,20) emits nothing in either
model; a next frame at (0,40) has moved 40px > 30px since the last
snapshot, so the claim's baseline rule emits — but the code, whose
baseline was silently advanced to (0,20), does not. -/
theorem C8_counterexample :
    (snapshotStep true 30 [⟨0, 0⟩] [⟨0, 20⟩]).1 = false ∧
    (snapshotStep true 30 (snapshotStep true 30 [⟨0, 0⟩] [⟨0, 20⟩]).2 [⟨0, 40⟩]).1 = false ∧
    (specSnapshotStep true 30 (specSnapshotStep true 30 [⟨0, 0⟩] [⟨0, 20⟩]).2 [⟨0, 40⟩]).1 = true := by
  have h1 : hasLocationChanged 30 [⟨0, 0⟩] [⟨0, 20⟩] = false := by
    simp [hasLocationChanged, dist2]
    norm_num
  have h2 : hasLocationChanged 30 [⟨0, 20⟩] [⟨0, 40⟩] = false := by
    simp [hasLocationChanged, dist2]
    norm_num
  have h3 : hasLocationChanged 30 [⟨0, 0⟩] [⟨0, 40⟩] = true := by
    simp [hasLocationChanged, dist2]
    norm_num
  refine ⟨?_, ?_, ?_⟩ <;> simp [snapshotStep, specSnapshotStep, h1, h2, h3]

/-- C8 amended: a snapshot is emitted iff debug mode is on and (the
stored previous-centers list is empty, or the marker count changed, or
some positionally-matched marker moved more than the threshold since the
PREVIOUS FRAME); the baseline is replaced by the current centers on
every call, whether or not a snapshot was emitted. -/
theorem C8_amended_snapshot_throttle (debugMode : Bool) (threshold : ℚ)
    (prev current : List Pt) :
    ((snapshotStep debugMode threshold prev current).1 = true ↔
      debugMode = true ∧
        (prev = [] ∨ current.length ≠ prev.length ∨
          ∃ pq ∈ current.zip prev, threshold ^ 2 < dist2 pq.1 pq.2)) ∧
    (snapshotStep debugMode threshold prev current).2 = current := by
  refine ⟨?_, rfl⟩
  unfold snapshotStep hasLocationChanged
  simp only [Bool.and_eq_true]
  constructor
  · rintro ⟨hd, hrest⟩
    refine ⟨hd, ?_⟩
    split_ifs at hrest with h1 h2
    · simp only [List.isEmpty_iff] at h1
      exact Or.inl h1
    · exact Or.inr (Or.inl h2)
    · right; right
      rcases List.any_eq_true.mp hrest with ⟨pq, hmem, hpq⟩
      exact ⟨pq, hmem, of_decide_eq_true hpq⟩
  · rintro ⟨hd, hrest⟩
    refine ⟨hd, ?_⟩
    split_ifs with h1 h2
    · rfl
    · rfl
    · rcases hrest with h | h | ⟨pq, hmem, hpq⟩
      · subst h
        simp at h1
      · exact absurd h h2
      · exact List.any_eq_true.mpr ⟨pq, hmem, decide_eq_true hpq⟩

end CodiceCam
